import Mathlib

/-!
Shallow embedding of the pain-based predictive outreach pipeline:
the EDP scorer and segment resolver (`src/scoring/edp_scorer.py`),
the ransomware override in the orchestrator (`src/main.py`),
the breach collector's dedup ledger and webhook delivery
(`src/collectors/breach_collector.py`), and domain extraction helpers
(`src/api/enriched_company_api.py`, `src/clay_client.py`).

Python floats are modelled by `ℚ` (all constants in the source are short
decimal literals), `datetime` values by integer day numbers (`Int`), and
the Clay datastore by explicit record lists passed to each function.
-/

namespace BTA

/-- Occurrence test for `pat` as a contiguous run inside a character
list. -/
def listContainsSub (pat : List Char) : List Char → Bool
  | [] => pat.isEmpty
  | c :: rest => pat.isPrefixOf (c :: rest) || listContainsSub pat rest

/-- Python's `needle in hay` substring test on strings. -/
def pyIn (needle hay : String) : Bool :=
  listContainsSub needle.toList hay.toList

/-- One row of the `pain_signals` table (§3 Signal Record).
`signal_date` is a day number: larger means more recent, so the ISO-string
ordering used by the Python `max(..., key=lambda x: x['signal_date'])`
agrees with the numeric ordering. `raw_days_open` is `raw_data.days_open`
with the Python `.get('days_open', 0)` default already applied. -/
structure Signal where
  domain : String
  signal_type : String
  signal_date : Int
  signal_strength : ℚ
  raw_days_open : Nat
  source : String
deriving Repr, DecidableEq

/-- One row of the `company_universe` table; `none` fields model keys
absent from the Python dict. -/
structure CompanyRecord where
  domain : String
  employee_count : Option Nat
  industry : Option String
deriving Repr, DecidableEq

/-- The Python empty dict `{}` returned by `get_company_info` when the
`company_universe` query has no row for the domain. -/
def emptyCompany : CompanyRecord := ⟨"", none, none⟩

/-- The Clay datastore as seen by the scorer. -/
structure ClayDB where
  pain_signals : List Signal
  company_universe : List CompanyRecord
deriving Repr

/-- `clay_client.query_table('pain_signals', {'domain': domain})`. -/
def signalsFor (db : ClayDB) (domain : String) : List Signal :=
  db.pain_signals.filter (fun s => s.domain == domain)

/-- `EDPScorer.get_company_info`: first matching row, else the empty dict. -/
def get_company_info (db : ClayDB) (domain : String) : CompanyRecord :=
  match db.company_universe.filter (fun c => c.domain == domain) with
  | [] => emptyCompany
  | c :: _ => c

/-- Result of `EDPScorer.get_tech_stack` (a placeholder in the source:
Wappalyzer/BuiltWith integration not implemented). -/
structure TechStack where
  has_mdr : Bool
  has_siem : Bool
  has_edr : Bool
  has_mssp : Bool
deriving Repr, DecidableEq

/-- `EDPScorer.get_tech_stack`: the source returns the constant
all-`False` dict for every domain. -/
def get_tech_stack (_domain : String) : TechStack :=
  ⟨false, false, false, false⟩

/-- Python `max(signals, key=lambda x: x['signal_date'])` (first maximal
element wins ties), or `none` on the empty list. -/
def maxByDate : List Signal → Option Signal
  | [] => none
  | s :: rest =>
      some (rest.foldl (fun acc x => if x.signal_date > acc.signal_date then x else acc) s)

/-- Python `company.get('industry') in industries` (`None` is never in
the list). -/
def industryIn (c : CompanyRecord) (industries : List String) : Bool :=
  match c.industry with
  | some i => industries.contains i
  | none => false

/-- `EDPScorer.calculate_dwell_score`: breach-recency band for the most
recent breach-type signal, plus penalties for absent MDR/SIEM/EDR, plus a
vacancy-signal penalty, clamped to 1. `today` stands for
`datetime.now()`. -/
def calculate_dwell_score (today : Int) (domain : String) (signals : List Signal) : ℚ :=
  let breach_signals := signals.filter (fun s => pyIn "breach" s.signal_type)
  let score : ℚ :=
    match maxByDate breach_signals with
    | none => 0
    | some most_recent =>
        let days_since := today - most_recent.signal_date
        if days_since < 30 then 9/10
        else if days_since < 90 then 7/10
        else if days_since < 180 then 5/10
        else 3/10
  let tech := get_tech_stack domain
  let score := if !tech.has_mdr then score + 3/10 else score
  let score := if !tech.has_siem then score + 2/10 else score
  let score := if !tech.has_edr then score + 2/10 else score
  let vacancy_signals := signals.filter (fun s => pyIn "vacancy" s.signal_type)
  let score := if !vacancy_signals.isEmpty then score + 2/10 else score
  min score 1

/-- Per-vacancy contribution in `EDPScorer.calculate_skills_gap_score`:
days-open tier plus executive bonus. -/
def vacancy_contribution (s : Signal) : ℚ :=
  (if s.raw_days_open > 90 then 4/10
   else if s.raw_days_open > 60 then 3/10
   else if s.raw_days_open > 30 then 2/10
   else 0)
  + (if pyIn "executive" s.signal_type then 2/10 else 0)

/-- `EDPScorer.calculate_skills_gap_score`. -/
def calculate_skills_gap_score (_domain : String) (signals : List Signal) : ℚ :=
  let vacancy_signals := signals.filter (fun s => pyIn "vacancy" s.signal_type)
  min (vacancy_signals.foldl (fun acc s => acc + vacancy_contribution s) 0) 1

/-- `EDPScorer.calculate_after_hours_score`: base 0.5, minus MDR/MSSP
coverage, plus high-risk industry, clamped to [0,1]. -/
def calculate_after_hours_score (db : ClayDB) (domain : String) : ℚ :=
  let score : ℚ := 1/2
  let tech := get_tech_stack domain
  let score := if tech.has_mdr then score - 4/10 else score
  let score := if tech.has_mssp then score - 3/10 else score
  let company := get_company_info db domain
  let score :=
    if industryIn company ["healthcare", "finance", "critical_infrastructure"]
    then score + 2/10 else score
  max (min score 1) 0

/-- `EDPScorer.calculate_insurance_score`. -/
def calculate_insurance_score (db : ClayDB) (domain : String) (signals : List Signal) : ℚ :=
  let score : ℚ := if !(signals.filter (fun s => pyIn "breach" s.signal_type)).isEmpty then 4/10 else 0
  let company := get_company_info db domain
  let score := if industryIn company ["healthcare", "finance"] then score + 3/10 else score
  let score := if !(signals.filter (fun s => pyIn "compliance" s.signal_type)).isEmpty then score + 3/10 else score
  min score 1

/-- Industry multiplier dict lookup in `calculate_breach_cost_score`
(`.get(company.get('industry',''), 1.0)`). -/
def industry_multiplier (industry : String) : ℚ :=
  if industry == "healthcare" then 3/2
  else if industry == "finance" then 13/10
  else if industry == "retail" then 6/5
  else if industry == "manufacturing" then 11/10
  else if industry == "technology" then 11/10
  else 1

/-- `EDPScorer.calculate_breach_cost_score`: size tier (employee count
defaulting to 100) times industry multiplier, clamped to 1. -/
def calculate_breach_cost_score (db : ClayDB) (domain : String) : ℚ :=
  let company := get_company_info db domain
  let employees := company.employee_count.getD 100
  let base_score : ℚ :=
    if employees > 5000 then 8/10
    else if employees > 1000 then 6/10
    else if employees > 500 then 4/10
    else 3/10
  let mult := industry_multiplier (company.industry.getD "")
  min (base_score * mult) 1

/-- The five sub-scores, in the insertion order of the Python dict. -/
structure SubScores where
  dwell_time : ℚ
  skills_gap : ℚ
  after_hours : ℚ
  insurance : ℚ
  breach_cost : ℚ
deriving Repr, DecidableEq

/-- Python `max(scores, key=scores.get)` over the score dict: first key
with the maximal value, in insertion order. -/
def primary_edp_of (s : SubScores) : String :=
  (([("skills_gap", s.skills_gap), ("after_hours", s.after_hours),
     ("insurance", s.insurance), ("breach_cost", s.breach_cost)] : List (String × ℚ)).foldl
    (fun acc p => if p.2 > acc.2 then p else acc) ("dwell_time", s.dwell_time)).1

/-- `EDPScorer.assign_segment`: the priority decision list. Rule 1 takes
the most recent breach-type signal and tests whether it is less than 90
days old; rule 5 looks up the company of the first signal's domain (the
empty string when the signal list is empty) and defaults a missing
`employee_count` to 0. -/
def assign_segment (today : Int) (db : ClayDB) (signals : List Signal) (scores : SubScores) : String :=
  let breach_signals := signals.filter (fun s => pyIn "breach" s.signal_type)
  let rule1 :=
    match maxByDate breach_signals with
    | none => false
    | some most_recent => decide (today - most_recent.signal_date < 90)
  if rule1 then "post_breach_survivor"
  else if scores.skills_gap > 7/10 then "skills_gap_sufferer"
  else if scores.insurance > 7/10 then "insurance_pressured"
  else if scores.dwell_time > 6/10 then "resource_constrained"
  else
    let dom := match signals with | [] => "" | s :: _ => s.domain
    let company := get_company_info db dom
    if company.employee_count.getD 0 < 500 then "overwhelmed_generalist"
    else "general_prospect"

/-- `EDPScorer.get_recommendation`. -/
def get_recommendation (score : ℚ) (_segment : String) : String :=
  if score ≥ 90 then "immediate_outreach_priority"
  else if score ≥ 75 then "high_priority_outreach"
  else if score ≥ 60 then "medium_priority_nurture"
  else if score ≥ 45 then "low_priority_monitor"
  else "not_qualified"

/-- The dict returned by `EDPScorer.calculate_company_score`. -/
structure ScoreResult where
  domain : String
  pain_score : ℚ
  individual_scores : SubScores
  primary_edp : String
  segment : String
  recommendation : String
deriving Repr, DecidableEq

/-- The fixed EDP weights of `EDPScorer.__init__`. -/
def w_dwell : ℚ := 35/100
def w_skills : ℚ := 25/100
def w_after : ℚ := 15/100
def w_insurance : ℚ := 15/100
def w_breach_cost : ℚ := 10/100

/-- `EDPScorer.calculate_company_score`. -/
def calculate_company_score (today : Int) (db : ClayDB) (domain : String) : ScoreResult :=
  let signals := signalsFor db domain
  let scores : SubScores :=
    { dwell_time := calculate_dwell_score today domain signals
      skills_gap := calculate_skills_gap_score domain signals
      after_hours := calculate_after_hours_score db domain
      insurance := calculate_insurance_score db domain signals
      breach_cost := calculate_breach_cost_score db domain }
  let total_score :=
    scores.dwell_time * w_dwell + scores.skills_gap * w_skills
    + scores.after_hours * w_after + scores.insurance * w_insurance
    + scores.breach_cost * w_breach_cost
  let segment := assign_segment today db signals scores
  { domain := domain
    pain_score := total_score * 100
    individual_scores := scores
    primary_edp := primary_edp_of scores
    segment := segment
    recommendation := get_recommendation (total_score * 100) segment }

/-- `BTAOrchestrator._process_ransomware_signals`: `some` override dict
when any signal has `signal_type == 'active_ransomware'`. -/
def process_ransomware_signals (domain : String) (signals : List Signal) : Option ScoreResult :=
  let ransomware_signals := signals.filter (fun s => s.signal_type == "active_ransomware")
  if ransomware_signals.isEmpty then none
  else some
    { domain := domain
      pain_score := 100
      individual_scores := ⟨0, 0, 0, 0, 0⟩
      primary_edp := "active_ransomware"
      segment := "post_breach_survivor"
      recommendation := "" }

/-- `BTAOrchestrator._score_single_company`: base score from the scorer,
then `score_data.update(ransomware_override)` which overwrites
`pain_score`, `primary_edp`, `segment` and `domain` only. -/
def score_single_company (today : Int) (db : ClayDB) (domain : String) : ScoreResult :=
  let score_data := calculate_company_score today db domain
  let signals := signalsFor db domain
  match process_ransomware_signals domain signals with
  | none => score_data
  | some ov =>
      { score_data with
        domain := ov.domain
        pain_score := ov.pain_score
        primary_edp := ov.primary_edp
        segment := ov.segment }

/-! ### Breach collector: dedup ledger and webhook delivery
(`src/collectors/breach_collector.py`) -/

/-- One breach record as built by `parse_breach_row` / `parse_hhs_row`.
`raw_extra` stands for all remaining fields of the Python dict
(`notice_date`, `signal_strength`, enrichment data, ...), which the dedup
hash never reads. -/
structure Breach where
  company_name : String
  breach_date : String
  source : String
  signal_type : String
  raw_extra : String
deriving Repr, DecidableEq

/-- `BreachCollector._get_breach_hash`: the MD5 input string
`company_name|breach_date|source`. MD5 is modelled as the identity on
this key string (the collector only ever compares hashes for
equality). -/
def get_breach_hash (b : Breach) : String :=
  b.company_name ++ "|" ++ b.breach_date ++ "|" ++ b.source

/-- `BreachCollector.filter_new_breaches`: keep breaches whose hash is
not in the sent-hash ledger. -/
def filter_new_breaches (sent_hashes : List String) (breaches : List Breach) : List Breach :=
  breaches.filter (fun b => !(sent_hashes.contains (get_breach_hash b)))

/-- Python `set.add` on the ledger (kept as a duplicate-free list). -/
def addHash (ledger : List String) (h : String) : List String :=
  if ledger.contains h then ledger else ledger ++ [h]

/-- `BreachCollector.mark_breaches_as_sent`: add each breach's hash to
the ledger and persist it. -/
def mark_breaches_as_sent (ledger : List String) (breaches : List Breach) : List String :=
  breaches.foldl (fun acc b => addHash acc (get_breach_hash b)) ledger

/-- Outcome of one HTTP POST to the sink webhook. -/
inductive HttpOutcome where
  | status (code : Nat)
  | netError
deriving Repr, DecidableEq

/-- `BreachCollector.send_to_webhook`: `True` exactly when the POST
returned status code 200; any other status, and any raised exception,
yields `False`. -/
def send_to_webhook (resp : HttpOutcome) : Bool :=
  match resp with
  | .status code => code == 200
  | .netError => false

/-- `ClayClient.trigger_webhook`: same acceptance test
(`response.status_code == 200`, exceptions give `False`). -/
def trigger_webhook (resp : HttpOutcome) : Bool :=
  match resp with
  | .status code => code == 200
  | .netError => false

/-- `BreachCollector.push_to_clay`: split into batches of 100, POST each
batch, and count (successful_batches, failed_batches). The network is
abstracted as `transport`, the HTTP outcome of the POST for each batch
index; the return counts are printed and discarded by the caller. -/
def push_to_clay (transport : Nat → HttpOutcome) (breaches : List Breach) : Nat × Nat :=
  let batches := List.toChunks 100 breaches
  (batches.enum).foldl
    (fun counts p =>
      if send_to_webhook (transport p.1) then (counts.1 + 1, counts.2)
      else (counts.1, counts.2 + 1))
    (0, 0)

/-- Observable result of `BreachCollector.run_collection`. -/
structure CollectionRun where
  new_breaches : List Breach
  successful_batches : Nat
  failed_batches : Nat
  ledger : List String
deriving Repr, DecidableEq

/-- `BreachCollector.run_collection`: filter collected breaches against
the ledger, push the new ones to the webhook, then mark them all as
sent. The push's success/failure counts do not influence the marking
step. -/
def run_collection (transport : Nat → HttpOutcome) (ledger0 : List String)
    (collected : List Breach) : CollectionRun :=
  let new_breaches := filter_new_breaches ledger0 collected
  if new_breaches.isEmpty then
    { new_breaches := new_breaches, successful_batches := 0, failed_batches := 0,
      ledger := ledger0 }
  else
    let counts := push_to_clay transport new_breaches
    let ledger1 := mark_breaches_as_sent ledger0 new_breaches
    { new_breaches := new_breaches, successful_batches := counts.1,
      failed_batches := counts.2, ledger := ledger1 }

/-! ### Domain extraction (`src/api/enriched_company_api.py`,
`src/clay_client.py`) -/

/-- Python `str.replace(pat, repl)` on character lists (all occurrences,
scanning left to right). The fuel argument, instantiated with the list
length, only makes the recursion structural: one unit is spent per
emitted chunk, and each chunk consumes at least one input character, so
the fuel never runs out on the uses below. -/
def listReplace (pat repl : List Char) : Nat → List Char → List Char
  | _, [] => []
  | 0, l => l
  | fuel + 1, c :: rest =>
      if pat.isPrefixOf (c :: rest) && !pat.isEmpty then
        repl ++ listReplace pat repl fuel ((c :: rest).drop pat.length)
      else
        c :: listReplace pat repl fuel rest

/-- Python `str.replace` on strings. -/
def pyReplace (s pat repl : String) : String :=
  (listReplace pat.toList repl.toList s.toList.length s.toList).asString

/-- Python `str.rstrip('/')`. -/
def rstripSlash (s : String) : String :=
  ((s.toList.reverse.dropWhile (fun c => c == '/')).reverse).asString

/-- Python `str.split('/')[0]`. -/
def takeUntilSlash (s : String) : String :=
  (s.toList.takeWhile (fun c => c != '/')).asString

/-- `extract_domain_from_url` in `enriched_company_api.py`: strip
`https://www.` / `http://www.`, then bare schemes, then trailing
slashes. `none` models Python `None`; `if not url` also catches the
empty string. -/
def extract_domain_from_url (url : Option String) : String :=
  match url with
  | none => ""
  | some u =>
      if u == "" then ""
      else
        let domain := pyReplace (pyReplace u "https://www." "") "http://www." ""
        let domain := pyReplace (pyReplace domain "https://" "") "http://" ""
        rstripSlash domain

/-- The `raw_data['website']` branch of `ClayClient.extract_domain`:
`website.replace('www.', '').replace('http://', '').replace('https://', '').split('/')[0]`. -/
def clay_website_to_domain (website : String) : String :=
  takeUntilSlash (pyReplace (pyReplace (pyReplace website "www." "") "http://" "") "https://" "")

/-! ### Segment rules as the spec words them (§4.4), for the refinement
proof of the decision list -/

/-- Spec rule 1's guard: some breach-type signal dated within 90 days. -/
def specHasRecentBreach (today : Int) (signals : List Signal) : Bool :=
  signals.any (fun s => pyIn "breach" s.signal_type && decide (today - s.signal_date < 90))

/-- Modelled from the spec's §4.4 wording: the first-match-wins decision
list over (signals, sub-scores, employee count). -/
def resolve_spec (today : Int) (signals : List Signal) (scores : SubScores)
    (employee_count : Nat) : String :=
  if specHasRecentBreach today signals then "post_breach_survivor"
  else if scores.skills_gap > 7/10 then "skills_gap_sufferer"
  else if scores.insurance > 7/10 then "insurance_pressured"
  else if scores.dwell_time > 6/10 then "resource_constrained"
  else if employee_count < 500 then "overwhelmed_generalist"
  else "general_prospect"

/-- The domain whose company record rule 5 of `assign_segment` looks up:
the first signal's domain, or `''` for an empty signal list. -/
def rule5_domain (signals : List Signal) : String :=
  match signals with | [] => "" | s :: _ => s.domain

/-! ### Concrete instances used as witnesses and counterexamples.
Day numbers: 20000 plays `datetime.now()`; 19990 is 10 days earlier. -/

/-- A breach-type signal 10 days old (with `today = 20000`). -/
def c3_signal : Signal :=
  { domain := "acme.com", signal_type := "post_breach", signal_date := 19990
    signal_strength := 1, raw_days_open := 0, source := "california_ag" }

/-- Sub-scores with `skills_gap = 0.95`. -/
def c3_scores : SubScores :=
  { dwell_time := 0, skills_gap := 95/100, after_hours := 0, insurance := 0, breach_cost := 0 }

def c3_db : ClayDB := { pain_signals := [c3_signal], company_universe := [] }

/-- An `active_ransomware` signal for `victim.com`. -/
def ransom_signal : Signal :=
  { domain := "victim.com", signal_type := "active_ransomware", signal_date := 19995
    signal_strength := 1, raw_days_open := 0, source := "ransomware_feed" }

def ransom_db : ClayDB := { pain_signals := [ransom_signal], company_universe := [] }

/-- An `active_ransomware` signal for `hospital.org`, alongside another
signal, for the segment-override witness. -/
def c9_signal : Signal :=
  { domain := "hospital.org", signal_type := "active_ransomware", signal_date := 19998
    signal_strength := 1, raw_days_open := 0, source := "ransomware_feed" }

def c9_other : Signal :=
  { domain := "hospital.org", signal_type := "executive_vacancy_critical", signal_date := 19900
    signal_strength := 1, raw_days_open := 120, source := "job_boards" }

def c9_db : ClayDB := { pain_signals := [c9_other, c9_signal], company_universe := [] }

/-- A healthcare company with no signals at all. -/
def c5_db : ClayDB :=
  { pain_signals := []
    company_universe := [{ domain := "clinic.com", employee_count := none, industry := some "healthcare" }] }

/-- A retail company with 800 employees and no signals. -/
def c5_witness_db : ClayDB :=
  { pain_signals := []
    company_universe := [{ domain := "midco.net", employee_count := some 800, industry := some "retail" }] }

/-- A company with neither signals nor a `company_universe` row. -/
def c10_db : ClayDB := { pain_signals := [], company_universe := [] }

/-- One collected breach record. -/
def c2_breach : Breach :=
  { company_name := "Acme Corp", breach_date := "2026-01-15T00:00:00"
    source := "california_ag", signal_type := "post_breach", raw_extra := "notice_2026_02_01" }

/-- A transport on which every webhook POST fails with HTTP 500. -/
def failing_transport : Nat → HttpOutcome := fun _ => HttpOutcome.status 500

/-- A breach event as first collected. -/
def c6_breach : Breach :=
  { company_name := "Globex LLC", breach_date := "2026-02-03T00:00:00"
    source := "hhs_hipaa", signal_type := "healthcare_breach", raw_extra := "first_scrape" }

/-- The same breach event re-collected with different raw payload
data. -/
def c6_breach_again : Breach :=
  { company_name := "Globex LLC", breach_date := "2026-02-03T00:00:00"
    source := "hhs_hipaa", signal_type := "healthcare_breach", raw_extra := "re_enriched_payload" }

/-! ### Sub-score bound lemmas -/

lemma vacancy_contribution_nonneg (s : Signal) : 0 ≤ vacancy_contribution s := by
  unfold vacancy_contribution
  split_ifs <;> norm_num

lemma skills_foldl_ge (l : List Signal) (a : ℚ) :
    a ≤ l.foldl (fun acc s => acc + vacancy_contribution s) a := by
  induction l generalizing a with
  | nil => simp
  | cons x xs ih =>
      simp only [List.foldl_cons]
      have hx := vacancy_contribution_nonneg x
      calc a ≤ a + vacancy_contribution x := by linarith
        _ ≤ _ := ih _

lemma skills_gap_nonneg (domain : String) (signals : List Signal) :
    0 ≤ calculate_skills_gap_score domain signals := by
  unfold calculate_skills_gap_score
  exact le_min (skills_foldl_ge _ 0) zero_le_one

lemma skills_gap_le_one (domain : String) (signals : List Signal) :
    calculate_skills_gap_score domain signals ≤ 1 := by
  unfold calculate_skills_gap_score
  exact min_le_right _ _

lemma dwell_nonneg (today : Int) (domain : String) (signals : List Signal) :
    0 ≤ calculate_dwell_score today domain signals := by
  unfold calculate_dwell_score get_tech_stack
  refine le_min ?_ zero_le_one
  simp only [Bool.not_false, if_true]
  split <;> split <;> (try split_ifs) <;> norm_num

lemma dwell_le_one (today : Int) (domain : String) (signals : List Signal) :
    calculate_dwell_score today domain signals ≤ 1 := by
  unfold calculate_dwell_score
  exact min_le_right _ _

lemma after_hours_nonneg (db : ClayDB) (domain : String) :
    0 ≤ calculate_after_hours_score db domain := by
  unfold calculate_after_hours_score
  exact le_max_right _ _

lemma after_hours_le_one (db : ClayDB) (domain : String) :
    calculate_after_hours_score db domain ≤ 1 := by
  unfold calculate_after_hours_score
  exact max_le (min_le_right _ _) zero_le_one

lemma insurance_nonneg (db : ClayDB) (domain : String) (signals : List Signal) :
    0 ≤ calculate_insurance_score db domain signals := by
  unfold calculate_insurance_score
  refine le_min ?_ zero_le_one
  split_ifs <;> norm_num

lemma insurance_le_one (db : ClayDB) (domain : String) (signals : List Signal) :
    calculate_insurance_score db domain signals ≤ 1 := by
  unfold calculate_insurance_score
  exact min_le_right _ _

lemma industry_multiplier_nonneg (industry : String) : 0 ≤ industry_multiplier industry := by
  unfold industry_multiplier
  split_ifs <;> norm_num

lemma breach_cost_nonneg (db : ClayDB) (domain : String) :
    0 ≤ calculate_breach_cost_score db domain := by
  unfold calculate_breach_cost_score
  refine le_min (mul_nonneg ?_ (industry_multiplier_nonneg _)) zero_le_one
  split_ifs <;> norm_num

lemma breach_cost_le_one (db : ClayDB) (domain : String) :
    calculate_breach_cost_score db domain ≤ 1 := by
  unfold calculate_breach_cost_score
  exact min_le_right _ _

/-! ### The most-recent-signal fold -/

lemma foldl_max_spec (rest : List Signal) (a : Signal) :
    (rest.foldl (fun acc x => if x.signal_date > acc.signal_date then x else acc) a = a ∨
      rest.foldl (fun acc x => if x.signal_date > acc.signal_date then x else acc) a ∈ rest) ∧
    a.signal_date ≤ (rest.foldl (fun acc x => if x.signal_date > acc.signal_date then x else acc) a).signal_date ∧
    ∀ s ∈ rest, s.signal_date ≤ (rest.foldl (fun acc x => if x.signal_date > acc.signal_date then x else acc) a).signal_date := by
  induction rest generalizing a with
  | nil => simp
  | cons x xs ih =>
      simp only [List.foldl_cons]
      by_cases hx : x.signal_date > a.signal_date
      · simp only [if_pos hx]
        obtain ⟨h1, h2, h3⟩ := ih x
        refine ⟨?_, ?_, ?_⟩
        · rcases h1 with h | h
          · exact Or.inr (by rw [h]; exact List.mem_cons_self x xs)
          · exact Or.inr (List.mem_cons_of_mem x h)
        · exact le_trans (le_of_lt hx) h2
        · intro s hs
          rcases List.mem_cons.mp hs with rfl | hs
          · exact h2
          · exact h3 s hs
      · simp only [if_neg hx]
        obtain ⟨h1, h2, h3⟩ := ih a
        refine ⟨?_, h2, ?_⟩
        · rcases h1 with h | h
          · exact Or.inl h
          · exact Or.inr (List.mem_cons_of_mem x h)
        · intro s hs
          rcases List.mem_cons.mp hs with rfl | hs
          · exact le_trans (le_of_not_lt hx) h2
          · exact h3 s hs

lemma maxByDate_spec (l : List Signal) (m : Signal) (h : maxByDate l = some m) :
    m ∈ l ∧ ∀ s ∈ l, s.signal_date ≤ m.signal_date := by
  cases l with
  | nil => simp [maxByDate] at h
  | cons a rest =>
      simp only [maxByDate, Option.some.injEq] at h
      subst h
      obtain ⟨h1, h2, h3⟩ := foldl_max_spec rest a
      constructor
      · rcases h1 with h | h
        · rw [h]; exact List.mem_cons_self _ _
        · exact List.mem_cons_of_mem _ h
      · intro s hs
        rcases List.mem_cons.mp hs with rfl | hs
        · exact h2
        · exact h3 s hs

lemma maxByDate_eq_none (l : List Signal) : maxByDate l = none ↔ l = [] := by
  cases l <;> simp [maxByDate]

lemma any_filter_eq (l : List Signal) (p q : Signal → Bool) :
    (l.filter p).any q = l.any (fun s => p s && q s) := by
  induction l with
  | nil => rfl
  | cons x xs ih =>
      by_cases hp : p x <;> simp [List.filter_cons, hp, ih]

/-- Rule 1 of `assign_segment` (test on the most recent breach-type
signal) decides the same question as the spec's rule 1 (some breach-type
signal within 90 days). -/
lemma rule1_eq_specHasRecentBreach (today : Int) (signals : List Signal) :
    (match maxByDate (signals.filter (fun s => pyIn "breach" s.signal_type)) with
      | none => false
      | some most_recent => decide (today - most_recent.signal_date < 90))
    = specHasRecentBreach today signals := by
  have hspec : specHasRecentBreach today signals
      = (signals.filter (fun s => pyIn "breach" s.signal_type)).any
          (fun s => decide (today - s.signal_date < 90)) := by
    unfold specHasRecentBreach
    rw [any_filter_eq]
  rw [hspec]
  rcases hmax : maxByDate (signals.filter (fun s => pyIn "breach" s.signal_type)) with _ | m
  · rw [(maxByDate_eq_none _).mp hmax]
    rfl
  · obtain ⟨hmem, hle⟩ := maxByDate_spec _ _ hmax
    by_cases h90 : today - m.signal_date < 90
    · simp only [h90, decide_True]
      symm
      rw [List.any_eq_true]
      exact ⟨m, hmem, by simpa using h90⟩
    · simp only [h90, decide_False]
      symm
      rw [List.any_eq_false]
      intro s hs
      have := hle s hs
      simp only [decide_eq_true_eq]
      omega

/-- `assign_segment` is exactly the spec's first-match-wins decision
list, with the employee count taken from the company record of the first
signal's domain (0 when absent). -/
lemma assign_segment_eq_resolve_spec (today : Int) (db : ClayDB) (signals : List Signal)
    (scores : SubScores) :
    assign_segment today db signals scores =
      resolve_spec today signals scores
        ((get_company_info db (rule5_domain signals)).employee_count.getD 0) := by
  unfold assign_segment resolve_spec rule5_domain
  simp only [rule1_eq_specHasRecentBreach]

/-! ### Projections of `calculate_company_score` -/

lemma score_dwell (today : Int) (db : ClayDB) (domain : String) :
    (calculate_company_score today db domain).individual_scores.dwell_time =
      calculate_dwell_score today domain (signalsFor db domain) := rfl

lemma score_skills (today : Int) (db : ClayDB) (domain : String) :
    (calculate_company_score today db domain).individual_scores.skills_gap =
      calculate_skills_gap_score domain (signalsFor db domain) := rfl

lemma score_after (today : Int) (db : ClayDB) (domain : String) :
    (calculate_company_score today db domain).individual_scores.after_hours =
      calculate_after_hours_score db domain := rfl

lemma score_insurance (today : Int) (db : ClayDB) (domain : String) :
    (calculate_company_score today db domain).individual_scores.insurance =
      calculate_insurance_score db domain (signalsFor db domain) := rfl

lemma score_breach_cost (today : Int) (db : ClayDB) (domain : String) :
    (calculate_company_score today db domain).individual_scores.breach_cost =
      calculate_breach_cost_score db domain := rfl

lemma score_pain (today : Int) (db : ClayDB) (domain : String) :
    (calculate_company_score today db domain).pain_score =
      (calculate_dwell_score today domain (signalsFor db domain) * w_dwell
        + calculate_skills_gap_score domain (signalsFor db domain) * w_skills
        + calculate_after_hours_score db domain * w_after
        + calculate_insurance_score db domain (signalsFor db domain) * w_insurance
        + calculate_breach_cost_score db domain * w_breach_cost) * 100 := rfl

lemma score_segment (today : Int) (db : ClayDB) (domain : String) :
    (calculate_company_score today db domain).segment =
      assign_segment today db (signalsFor db domain)
        (calculate_company_score today db domain).individual_scores := rfl

/-! ### Claim theorems -/

/-- C4: for every datastore state and company, each of the five
sub-scores returned by the scorer lies in [0,1]; the weights
0.35/0.25/0.15/0.15/0.10 sum to 1; the composite pain score equals
100 · Σ sub_score·weight and lies in [0,100]. -/
theorem C4_sub_score_and_pain_score_bounds (today : Int) (db : ClayDB) (domain : String) :
    (0 ≤ (calculate_company_score today db domain).individual_scores.dwell_time ∧
      (calculate_company_score today db domain).individual_scores.dwell_time ≤ 1) ∧
    (0 ≤ (calculate_company_score today db domain).individual_scores.skills_gap ∧
      (calculate_company_score today db domain).individual_scores.skills_gap ≤ 1) ∧
    (0 ≤ (calculate_company_score today db domain).individual_scores.after_hours ∧
      (calculate_company_score today db domain).individual_scores.after_hours ≤ 1) ∧
    (0 ≤ (calculate_company_score today db domain).individual_scores.insurance ∧
      (calculate_company_score today db domain).individual_scores.insurance ≤ 1) ∧
    (0 ≤ (calculate_company_score today db domain).individual_scores.breach_cost ∧
      (calculate_company_score today db domain).individual_scores.breach_cost ≤ 1) ∧
    w_dwell + w_skills + w_after + w_insurance + w_breach_cost = 1 ∧
    (calculate_company_score today db domain).pain_score =
      100 * ((calculate_company_score today db domain).individual_scores.dwell_time * w_dwell
        + (calculate_company_score today db domain).individual_scores.skills_gap * w_skills
        + (calculate_company_score today db domain).individual_scores.after_hours * w_after
        + (calculate_company_score today db domain).individual_scores.insurance * w_insurance
        + (calculate_company_score today db domain).individual_scores.breach_cost * w_breach_cost) ∧
    0 ≤ (calculate_company_score today db domain).pain_score ∧
    (calculate_company_score today db domain).pain_score ≤ 100 := by
  have hd1 := dwell_nonneg today domain (signalsFor db domain)
  have hd2 := dwell_le_one today domain (signalsFor db domain)
  have hs1 := skills_gap_nonneg domain (signalsFor db domain)
  have hs2 := skills_gap_le_one domain (signalsFor db domain)
  have ha1 := after_hours_nonneg db domain
  have ha2 := after_hours_le_one db domain
  have hi1 := insurance_nonneg db domain (signalsFor db domain)
  have hi2 := insurance_le_one db domain (signalsFor db domain)
  have hb1 := breach_cost_nonneg db domain
  have hb2 := breach_cost_le_one db domain
  simp only [score_dwell, score_skills, score_after, score_insurance, score_breach_cost,
    score_pain, w_dwell, w_skills, w_after, w_insurance, w_breach_cost]
  refine ⟨⟨hd1, hd2⟩, ⟨hs1, hs2⟩, ⟨ha1, ha2⟩, ⟨hi1, hi2⟩, ⟨hb1, hb2⟩, by norm_num, by ring, ?_, ?_⟩
  · nlinarith
  · nlinarith

/-- C3: segment resolution is the exact first-match-wins decision list
(breach within 90 days, then skills_gap > 0.7, insurance > 0.7,
dwell_time > 0.6, employee_count < 500, else general_prospect), with its
employee count looked up from the first signal's domain and defaulted
to 0; in particular an input with a breach signal 10 days old and
skills_gap sub-score 0.95 resolves to post_breach_survivor. -/
theorem C3_segment_first_match_decision_list :
    (∀ (today : Int) (db : ClayDB) (signals : List Signal) (scores : SubScores),
        assign_segment today db signals scores =
          resolve_spec today signals scores
            ((get_company_info db (rule5_domain signals)).employee_count.getD 0)) ∧
    c3_scores.skills_gap = 95/100 ∧
    pyIn "breach" c3_signal.signal_type = true ∧
    20000 - c3_signal.signal_date = 10 ∧
    assign_segment 20000 c3_db [c3_signal] c3_scores = "post_breach_survivor" := by
  refine ⟨assign_segment_eq_resolve_spec, by norm_num [c3_scores], by decide, by decide, ?_⟩
  decide

lemma ransomware_filter_ne_empty (signals : List Signal)
    (h : ∃ s ∈ signals, s.signal_type = "active_ransomware") :
    (signals.filter (fun s => s.signal_type == "active_ransomware")).isEmpty = false := by
  obtain ⟨s, hs, hty⟩ := h
  have hmem : s ∈ signals.filter (fun s => s.signal_type == "active_ransomware") :=
    List.mem_filter.mpr ⟨hs, by simp [hty]⟩
  rcases hfe : signals.filter (fun s => s.signal_type == "active_ransomware") with _ | ⟨a, l⟩
  · rw [hfe] at hmem
    simp at hmem
  · rw [hfe]
    rfl

/-- C1: whenever some signal of the company has signal_type
`active_ransomware`, the orchestrator's per-company scoring result is
force-set to pain_score 100 and primary_edp `active_ransomware`,
whatever the computed sub-scores and the other signals are. -/
theorem C1_ransomware_override (today : Int) (db : ClayDB) (domain : String)
    (h : ∃ s ∈ signalsFor db domain, s.signal_type = "active_ransomware") :
    (score_single_company today db domain).pain_score = 100 ∧
    (score_single_company today db domain).primary_edp = "active_ransomware" := by
  have hne := ransomware_filter_ne_empty (signalsFor db domain) h
  unfold score_single_company process_ransomware_signals
  simp [hne]

/-- C1 witness: a concrete store holding one `active_ransomware` signal
for `victim.com`. -/
theorem C1_ransomware_override_witness :
    (∃ s ∈ signalsFor ransom_db "victim.com", s.signal_type = "active_ransomware") ∧
    ((score_single_company 20000 ransom_db "victim.com").pain_score = 100 ∧
      (score_single_company 20000 ransom_db "victim.com").primary_edp = "active_ransomware") := by
  have h : ∃ s ∈ signalsFor ransom_db "victim.com", s.signal_type = "active_ransomware" := by
    exact ⟨ransom_signal, by decide, rfl⟩
  exact ⟨h, C1_ransomware_override 20000 ransom_db "victim.com" h⟩

/-- C9: whenever the ransomware override fires, the orchestrator also
force-sets segment to `post_breach_survivor`, although the segment
resolver's own rule-1 substring test (`'breach' in signal_type`) does
not match the string `active_ransomware`. -/
theorem C9_ransomware_forces_post_breach_segment (today : Int) (db : ClayDB) (domain : String)
    (h : ∃ s ∈ signalsFor db domain, s.signal_type = "active_ransomware") :
    (score_single_company today db domain).segment = "post_breach_survivor" ∧
    pyIn "breach" "active_ransomware" = false := by
  have hne := ransomware_filter_ne_empty (signalsFor db domain) h
  unfold score_single_company process_ransomware_signals
  constructor
  · simp [hne]
  · decide

/-- C9 witness: a hospital with an `active_ransomware` signal plus an
unrelated vacancy signal. -/
theorem C9_ransomware_forces_post_breach_segment_witness :
    (∃ s ∈ signalsFor c9_db "hospital.org", s.signal_type = "active_ransomware") ∧
    ((score_single_company 20000 c9_db "hospital.org").segment = "post_breach_survivor" ∧
      pyIn "breach" "active_ransomware" = false) := by
  have h : ∃ s ∈ signalsFor c9_db "hospital.org", s.signal_type = "active_ransomware" := by
    exact ⟨c9_signal, by decide, rfl⟩
  exact ⟨h, C9_ransomware_forces_post_breach_segment 20000 c9_db "hospital.org" h⟩

/-- C5 counterexample: `clinic.com` (healthcare, no `company_universe`
employee count) has an empty signal set, yet its dwell_time sub-score is
0.7 — the absent-tooling penalties fire with no signals at all — and its
insurance sub-score is 0.3 from the industry term alone; so it is false
that every sub-score except after_hours and breach_cost is 0. -/
theorem C5_empty_signal_set_counterexample :
    signalsFor c5_db "clinic.com" = [] ∧
    (calculate_company_score 20000 c5_db "clinic.com").individual_scores.dwell_time = 7/10 ∧
    (calculate_company_score 20000 c5_db "clinic.com").individual_scores.dwell_time ≠ 0 ∧
    (calculate_company_score 20000 c5_db "clinic.com").individual_scores.insurance = 3/10 ∧
    (calculate_company_score 20000 c5_db "clinic.com").individual_scores.insurance ≠ 0 := by
  have hd : (calculate_company_score 20000 c5_db "clinic.com").individual_scores.dwell_time
      = 7/10 := by
    rw [score_dwell]
    norm_num [calculate_dwell_score, signalsFor, c5_db, maxByDate, get_tech_stack]
  have hi : (calculate_company_score 20000 c5_db "clinic.com").individual_scores.insurance
      = 3/10 := by
    rw [score_insurance]
    norm_num [calculate_insurance_score, signalsFor, c5_db, get_company_info, industryIn,
      List.filter]
  refine ⟨by decide, hd, ?_, hi, ?_⟩
  · rw [hd]
    norm_num
  · rw [hi]
    norm_num

/-- C5 amended: for an empty signal set, skills_gap is 0 and insurance
reduces to its industry term; after_hours is its base 0.5 plus the
industry adjustment; breach_cost is 0.3 when the company record is
absent; but dwell_time is 0.7, the sum of the security-tooling
penalties, which apply independently of signals; the pain score is then
computed by the normal weighted formula. -/
theorem C5_empty_signal_set_amended (today : Int) (db : ClayDB) (domain : String)
    (h : signalsFor db domain = []) :
    (calculate_company_score today db domain).individual_scores.skills_gap = 0 ∧
    (calculate_company_score today db domain).individual_scores.dwell_time = 7/10 ∧
    ((calculate_company_score today db domain).individual_scores.after_hours =
      if industryIn (get_company_info db domain) ["healthcare", "finance", "critical_infrastructure"]
      then 7/10 else 1/2) ∧
    ((calculate_company_score today db domain).individual_scores.insurance =
      if industryIn (get_company_info db domain) ["healthcare", "finance"] then 3/10 else 0) ∧
    (get_company_info db domain = emptyCompany →
      (calculate_company_score today db domain).individual_scores.breach_cost = 3/10) ∧
    (calculate_company_score today db domain).pain_score =
      ((calculate_company_score today db domain).individual_scores.dwell_time * w_dwell
        + (calculate_company_score today db domain).individual_scores.skills_gap * w_skills
        + (calculate_company_score today db domain).individual_scores.after_hours * w_after
        + (calculate_company_score today db domain).individual_scores.insurance * w_insurance
        + (calculate_company_score today db domain).individual_scores.breach_cost * w_breach_cost)
        * 100 := by
  refine ⟨?_, ?_, ?_, ?_, ?_, ?_⟩
  · rw [score_skills, h]
    norm_num [calculate_skills_gap_score]
  · rw [score_dwell, h]
    norm_num [calculate_dwell_score, maxByDate, get_tech_stack]
  · rw [score_after]
    unfold calculate_after_hours_score get_tech_stack
    by_cases hind : industryIn (get_company_info db domain)
        ["healthcare", "finance", "critical_infrastructure"] = true <;>
      simp only [hind, Bool.not_false, if_true, if_false, Bool.false_eq_true] <;> norm_num
  · rw [score_insurance, h]
    unfold calculate_insurance_score
    by_cases hind : industryIn (get_company_info db domain) ["healthcare", "finance"] = true <;>
      simp only [hind, List.filter_nil, List.isEmpty_nil, Bool.not_true, if_false, if_true,
        Bool.false_eq_true] <;> norm_num
  · intro he
    rw [score_breach_cost]
    unfold calculate_breach_cost_score
    rw [he]
    simp only [emptyCompany, Option.getD_none]
    have hm : industry_multiplier "" = 1 := by decide
    rw [hm]
    norm_num
  · rw [score_pain]
    simp only [score_dwell, score_skills, score_after, score_insurance, score_breach_cost]

/-- C5 witness: a concrete company (`midco.net`, no signals, a universe
row with 800 employees in retail) instantiating the amended empty-signal
statement. -/
theorem C5_empty_signal_set_amended_witness :
    signalsFor c5_witness_db "midco.net" = [] ∧
    ((calculate_company_score 20000 c5_witness_db "midco.net").individual_scores.skills_gap = 0 ∧
    (calculate_company_score 20000 c5_witness_db "midco.net").individual_scores.dwell_time = 7/10 ∧
    ((calculate_company_score 20000 c5_witness_db "midco.net").individual_scores.after_hours =
      if industryIn (get_company_info c5_witness_db "midco.net")
          ["healthcare", "finance", "critical_infrastructure"]
      then 7/10 else 1/2) ∧
    ((calculate_company_score 20000 c5_witness_db "midco.net").individual_scores.insurance =
      if industryIn (get_company_info c5_witness_db "midco.net") ["healthcare", "finance"]
      then 3/10 else 0) ∧
    (get_company_info c5_witness_db "midco.net" = emptyCompany →
      (calculate_company_score 20000 c5_witness_db "midco.net").individual_scores.breach_cost
        = 3/10) ∧
    (calculate_company_score 20000 c5_witness_db "midco.net").pain_score =
      ((calculate_company_score 20000 c5_witness_db "midco.net").individual_scores.dwell_time * w_dwell
        + (calculate_company_score 20000 c5_witness_db "midco.net").individual_scores.skills_gap * w_skills
        + (calculate_company_score 20000 c5_witness_db "midco.net").individual_scores.after_hours * w_after
        + (calculate_company_score 20000 c5_witness_db "midco.net").individual_scores.insurance * w_insurance
        + (calculate_company_score 20000 c5_witness_db "midco.net").individual_scores.breach_cost * w_breach_cost)
        * 100) := by
  have h : signalsFor c5_witness_db "midco.net" = [] := rfl
  exact ⟨h, C5_empty_signal_set_amended 20000 c5_witness_db "midco.net" h⟩

lemma get_company_info_of_no_row (db : ClayDB) (domain : String)
    (h : db.company_universe.filter (fun c => c.domain == domain) = []) :
    get_company_info db domain = emptyCompany := by
  unfold get_company_info
  rw [h]

lemma signalsFor_domain (db : ClayDB) (domain : String) (s : Signal)
    (hs : s ∈ signalsFor db domain) : s.domain = domain := by
  unfold signalsFor at hs
  have h := (List.mem_filter.mp hs).2
  simpa using h

/-- C10: with no `company_universe` row for the domain, the breach-cost
sub-score falls back to employee count 100 and multiplier 1, i.e. 0.3;
segment resolution defaults the missing employee count to 0, so when
rules 1-4 all fail the company gets `overwhelmed_generalist`, and the
segment is never `general_prospect`. -/
theorem C10_missing_company_metadata (today : Int) (db : ClayDB) (domain : String)
    (hmiss : db.company_universe.filter (fun c => c.domain == domain) = [])
    (hwf : ∀ c ∈ db.company_universe, c.domain ≠ "") :
    calculate_breach_cost_score db domain = 3/10 ∧
    (calculate_company_score today db domain).segment ≠ "general_prospect" ∧
    (specHasRecentBreach today (signalsFor db domain) = false →
      (calculate_company_score today db domain).individual_scores.skills_gap ≤ 7/10 →
      (calculate_company_score today db domain).individual_scores.insurance ≤ 7/10 →
      (calculate_company_score today db domain).individual_scores.dwell_time ≤ 6/10 →
      (calculate_company_score today db domain).segment = "overwhelmed_generalist") := by
  have hinfo : get_company_info db domain = emptyCompany :=
    get_company_info_of_no_row db domain hmiss
  have hrule5 : get_company_info db (rule5_domain (signalsFor db domain)) = emptyCompany := by
    rcases hsig : signalsFor db domain with _ | ⟨s, rest⟩
    · have hfe : db.company_universe.filter (fun c => c.domain == "") = [] := by
        rcases hf : db.company_universe.filter (fun c => c.domain == "") with _ | ⟨c, l⟩
        · exact hf
        · exfalso
          have hc : c ∈ db.company_universe.filter (fun c => c.domain == "") := by
            rw [hf]
            exact List.mem_cons_self c l
          have hm := List.mem_filter.mp hc
          exact hwf c hm.1 (by simpa using hm.2)
      rw [show rule5_domain ([] : List Signal) = "" from rfl]
      exact get_company_info_of_no_row db "" hfe
    · have hdom : s.domain = domain := by
        refine signalsFor_domain db domain s ?_
        rw [hsig]
        exact List.mem_cons_self s rest
      rw [show rule5_domain (s :: rest) = s.domain from rfl, hdom]
      exact hinfo
  refine ⟨?_, ?_, ?_⟩
  · unfold calculate_breach_cost_score
    rw [hinfo]
    simp only [emptyCompany, Option.getD_none]
    have hm : industry_multiplier "" = 1 := by decide
    rw [hm]
    norm_num
  · rw [score_segment, assign_segment_eq_resolve_spec, hrule5]
    unfold resolve_spec
    simp only [emptyCompany, Option.getD_none]
    split_ifs <;> first | decide | omega
  · intro h1 h2 h3 h4
    have h2' := not_lt.mpr h2
    have h3' := not_lt.mpr h3
    have h4' := not_lt.mpr h4
    rw [score_segment, assign_segment_eq_resolve_spec, hrule5]
    unfold resolve_spec
    simp [h1, h2', h3', h4', emptyCompany]

/-- C10 witness: a store with no `company_universe` rows at all. -/
theorem C10_missing_company_metadata_witness :
    (c10_db.company_universe.filter (fun c => c.domain == "nowhere.com") = [] ∧
      ∀ c ∈ c10_db.company_universe, c.domain ≠ "") ∧
    (calculate_breach_cost_score c10_db "nowhere.com" = 3/10 ∧
      (calculate_company_score 20000 c10_db "nowhere.com").segment ≠ "general_prospect" ∧
      (specHasRecentBreach 20000 (signalsFor c10_db "nowhere.com") = false →
        (calculate_company_score 20000 c10_db "nowhere.com").individual_scores.skills_gap ≤ 7/10 →
        (calculate_company_score 20000 c10_db "nowhere.com").individual_scores.insurance ≤ 7/10 →
        (calculate_company_score 20000 c10_db "nowhere.com").individual_scores.dwell_time ≤ 6/10 →
        (calculate_company_score 20000 c10_db "nowhere.com").segment = "overwhelmed_generalist")) := by
  have hmiss : c10_db.company_universe.filter (fun c => c.domain == "nowhere.com") = [] := rfl
  have hwf : ∀ c ∈ c10_db.company_universe, c.domain ≠ "" := by
    intro c hc
    simp [c10_db] at hc
  exact ⟨⟨hmiss, hwf⟩, C10_missing_company_metadata 20000 c10_db "nowhere.com" hmiss hwf⟩

/-- C6: the dedup key reads only (company_name, breach_date, source);
submitting the same breach twice (second time with different raw data),
with the mark-sent commit after the first submission, yields exactly one
"new" classification and grows the ledger by exactly one hash entry. -/
theorem C6_dedup_idempotent_on_key (b b' : Breach) (ledger : List String)
    (hname : b'.company_name = b.company_name)
    (hdate : b'.breach_date = b.breach_date)
    (hsrc : b'.source = b.source)
    (hfresh : ledger.contains (get_breach_hash b) = false) :
    get_breach_hash b' = get_breach_hash b ∧
    filter_new_breaches ledger [b] = [b] ∧
    (mark_breaches_as_sent ledger (filter_new_breaches ledger [b])).length = ledger.length + 1 ∧
    filter_new_breaches (mark_breaches_as_sent ledger (filter_new_breaches ledger [b])) [b'] = [] ∧
    mark_breaches_as_sent (mark_breaches_as_sent ledger (filter_new_breaches ledger [b]))
        (filter_new_breaches (mark_breaches_as_sent ledger (filter_new_breaches ledger [b])) [b'])
      = mark_breaches_as_sent ledger (filter_new_breaches ledger [b]) := by
  have hkey : get_breach_hash b' = get_breach_hash b := by
    unfold get_breach_hash
    rw [hname, hdate, hsrc]
  have hnm : get_breach_hash b ∉ ledger := by
    simpa using hfresh
  have hf1 : filter_new_breaches ledger [b] = [b] := by
    unfold filter_new_breaches
    simp [List.filter_cons, hnm]
  have hm1 : mark_breaches_as_sent ledger [b] = ledger ++ [get_breach_hash b] := by
    unfold mark_breaches_as_sent addHash
    simp [hnm]
  have hcont : (ledger ++ [get_breach_hash b]).contains (get_breach_hash b) = true := by
    simp
  have hf2 : filter_new_breaches (ledger ++ [get_breach_hash b]) [b'] = [] := by
    unfold filter_new_breaches
    simp [List.filter_cons, hkey, hcont]
  refine ⟨hkey, hf1, ?_, ?_, ?_⟩
  · rw [hf1, hm1]
    simp
  · rw [hf1, hm1]
    exact hf2
  · rw [hf1, hm1, hf2]
    rfl

/-- C6 witness: the Globex breach submitted twice against an empty
ledger, the second time with different raw payload data. -/
theorem C6_dedup_idempotent_on_key_witness :
    (c6_breach_again.company_name = c6_breach.company_name ∧
      c6_breach_again.breach_date = c6_breach.breach_date ∧
      c6_breach_again.source = c6_breach.source ∧
      c6_breach_again.raw_extra ≠ c6_breach.raw_extra ∧
      ([] : List String).contains (get_breach_hash c6_breach) = false) ∧
    (get_breach_hash c6_breach_again = get_breach_hash c6_breach ∧
      filter_new_breaches [] [c6_breach] = [c6_breach] ∧
      (mark_breaches_as_sent [] (filter_new_breaches [] [c6_breach])).length = ([] : List String).length + 1 ∧
      filter_new_breaches (mark_breaches_as_sent [] (filter_new_breaches [] [c6_breach])) [c6_breach_again] = [] ∧
      mark_breaches_as_sent (mark_breaches_as_sent [] (filter_new_breaches [] [c6_breach]))
          (filter_new_breaches (mark_breaches_as_sent [] (filter_new_breaches [] [c6_breach])) [c6_breach_again])
        = mark_breaches_as_sent [] (filter_new_breaches [] [c6_breach])) := by
  refine ⟨⟨rfl, rfl, rfl, by decide, rfl⟩, ?_⟩
  exact C6_dedup_idempotent_on_key c6_breach c6_breach_again [] rfl rfl rfl rfl

/-- C2 status (code bug): at a run on a fresh ledger where the single
batch's webhook POST fails with HTTP 500, `run_collection` nevertheless
records the breach's hash in the dedup ledger, and a later run with that
ledger classifies the same record as a duplicate instead of new — the
failed delivery is never resent. -/
theorem C2_failed_delivery_still_marked_sent :
    (run_collection failing_transport [] [c2_breach]).successful_batches = 0 ∧
    (run_collection failing_transport [] [c2_breach]).failed_batches = 1 ∧
    (run_collection failing_transport [] [c2_breach]).ledger.contains (get_breach_hash c2_breach)
      = true ∧
    filter_new_breaches (run_collection failing_transport [] [c2_breach]).ledger [c2_breach]
      = [] := by
  decide

/-- C7 counterexample: neither domain extractor lowercases, so
`https://www.Example.com/` does not canonicalize to `example.com`. -/
theorem C7_canonicalization_counterexample :
    extract_domain_from_url (some "https://www.Example.com/") = "Example.com" ∧
    clay_website_to_domain "https://www.Example.com/" = "Example.com" ∧
    "Example.com" ≠ "example.com" := by
  decide

/-- C7 amended: both extractors strip the scheme, a `www.` marker and
trailing slashes, but preserve letter case: the two already-lowercase
inputs merge to `example.com`, while `https://www.Example.com/` maps to
`Example.com`. -/
theorem C7_canonicalization_amended :
    extract_domain_from_url (some "https://www.Example.com/") = "Example.com" ∧
    extract_domain_from_url (some "example.com") = "example.com" ∧
    extract_domain_from_url (some "http://example.com") = "example.com" ∧
    clay_website_to_domain "https://www.Example.com/" = "Example.com" ∧
    clay_website_to_domain "example.com" = "example.com" ∧
    clay_website_to_domain "http://example.com" = "example.com" := by
  decide

/-- C8 counterexample: HTTP 201 and 204 are in the 2xx range, yet both
webhook senders report the delivery as failed. -/
theorem C8_acceptance_counterexample :
    send_to_webhook (HttpOutcome.status 201) = false ∧
    trigger_webhook (HttpOutcome.status 204) = false ∧
    200 ≤ 201 ∧ 201 < 300 ∧ 200 ≤ 204 ∧ 204 < 300 := by
  decide

/-- C8 amended: a delivery is reported accepted iff the POST returned
status exactly 200; every other status, and every network error, is
reported as a failure (`false`, leaving the record retry-eligible). -/
theorem C8_acceptance_iff_status_200 (resp : HttpOutcome) :
    (send_to_webhook resp = true ↔ resp = HttpOutcome.status 200) ∧
    (trigger_webhook resp = true ↔ resp = HttpOutcome.status 200) := by
  cases resp <;> simp [send_to_webhook, trigger_webhook]

end BTA

